/-
Verification of the broker-trading-platform AI prediction service
(`src/ai-service`): a shallow embedding in Lean 4 of the prediction
engine (`prediction_engine.py`), the real-data fallback predictor
(`fallback_predictor.py`) and the Kronos integration layer
(`kronos_integration/predictor.py`), together with proofs and
refutations of the specified properties.

Modelling conventions:
* Python floats are modelled as exact rationals (`ℚ`).  `round(x, 2)`
  (Python's round-half-to-even) is modelled exactly on rationals by
  `pyRound2`.
* Random draws (`np.random.normal`, `np.random.randn`,
  `np.random.uniform`) are explicit inputs: a stream of shock values
  and a drawn confidence value.
* Calendar dates: every backend stamps point `day` with
  `base_date + timedelta(days=day)` formatted `"%Y-%m-%d"`.  We model a
  date as its day offset (a `Nat`) from the request's base date; the
  empty-string default date of the Kronos normaliser is modelled as
  offset `0` (generated offsets are always ≥ 1).
* Fallible Python code (raising `ValueError` / `IndexError`) returns
  `Except String _`; backend construction errors keep their Python
  exception class (`PyExc`) because `_determine_backend` dispatches on
  it.
* External collaborators (Yahoo-Finance history, the torch model) are
  opaque: their outputs (closing prices, model forecast rows, current
  price, `np.std` of the window) are parameters of the embedded
  functions.
-/

import Mathlib

set_option linter.unusedVariables false

/-! ## Python `round(x, 2)` (round half to even), exactly on `ℚ` -/

/-- Round a rational to the nearest integer, ties to the even integer
(Python / IEEE "banker's rounding"). -/
def roundHalfEven (q : ℚ) : ℤ :=
  if q - ⌊q⌋ < 1/2 then ⌊q⌋
  else if 1/2 < q - ⌊q⌋ then ⌊q⌋ + 1
  else if ⌊q⌋ % 2 = 0 then ⌊q⌋ else ⌊q⌋ + 1

/-- Python's `round(x, 2)` on exact rationals. -/
def pyRound2 (x : ℚ) : ℚ := (roundHalfEven (x * 100) : ℚ) / 100

/-! ## Data model (`prediction_engine.py`, dataclasses) -/

/-- `PredictionPoint` dataclass: one forecast day.  `date` is the day
offset from the base date (see the header comment). -/
structure PredictionPoint where
  date : Nat
  predicted_price : ℚ
  confidence_lower : ℚ
  confidence_upper : ℚ
  deriving Repr, DecidableEq

/-- `Prediction` dataclass: a full prediction payload. -/
structure Prediction where
  isin : String
  security_name : String
  current_price : ℚ
  predictions : List PredictionPoint
  signal : String
  confidence : ℚ
  trend : String
  ai_summary : String
  deriving Repr, DecidableEq

/-- One entry of the `SECURITIES` catalog. -/
structure SecurityInfo where
  name : String
  current_price : ℚ
  volatility : ℚ
  trend : String
  deriving Repr, DecidableEq

/-- The static `SECURITIES` catalog of `prediction_engine.py`. -/
def SECURITIES : List (String × SecurityInfo) :=
  [("US67066G1040", ⟨"NVIDIA Corp", 100, 3/100, "bullish"⟩),
   ("US0378331005", ⟨"Apple Inc", 200, 2/100, "neutral"⟩),
   ("US5949181045", ⟨"Microsoft Corp", 355/10, 25/1000, "bullish"⟩)]

/-- `isin in SECURITIES` / `SECURITIES[isin]` lookup. -/
def lookupSecurity (isin : String) : Option SecurityInfo :=
  (SECURITIES.find? (fun e => e.1 = isin)).map (fun e => e.2)

/-! ## `SimulatedPredictorBackend.predict` (`prediction_engine.py` 167-235) -/

/-- Drift selected by the catalog's trend label
(`prediction_engine.py` 181-204). -/
def simDrift (trend : String) : ℚ :=
  if trend = "bullish" then 15/1000
  else if trend = "bearish" then -(12/1000)
  else 2/1000

/-- Signal selected by the catalog's trend label (same branch as the
drift selection). -/
def simSignal (trend : String) : String :=
  if trend = "bullish" then "BUY"
  else if trend = "bearish" then "SELL"
  else "HOLD"

/-- Summary template selected by the catalog's trend label
(`prediction_engine.py` 185-204).  The `%`-interpolation of the
percentage move and the horizon into the template is abstracted away
(float formatting is outside the embedding); the template text itself
distinguishes the branch taken. -/
def simSummary (trend : String) : String :=
  if trend = "bullish" then
    "Strong upward momentum detected. Technical indicators suggest continued bullish trend."
  else if trend = "bearish" then
    "Bearish signals detected. Consider profit-taking or position reduction."
  else
    "Neutral outlook. Market consolidation expected."

/-- The per-day loop of `SimulatedPredictorBackend.predict`
(`prediction_engine.py` 206-220).  `shocks i` is the draw
`np.random.normal(0, volatility)` of iteration `day = i + 1`. -/
def simPoints (cp vol drift : ℚ) (shocks : Nat → ℚ) (h : Nat) :
    List PredictionPoint :=
  (List.range h).map fun i =>
    let day : ℚ := (i + 1 : Nat)
    let price_change := cp * (drift + shocks i)
    let predicted_price := cp + price_change * day
    let confidence_width := vol * cp * (1 + 3/10 * day)
    { date := i + 1
      predicted_price := pyRound2 predicted_price
      confidence_lower := pyRound2 (predicted_price - confidence_width)
      confidence_upper := pyRound2 (predicted_price + confidence_width) }

namespace SimulatedPredictorBackend

/-- `SimulatedPredictorBackend.predict` (`prediction_engine.py`
170-235).  `confDraw` is the `np.random.uniform` confidence draw of
the taken branch; the numeric interpolation of the summary template is
abstracted away (see `simSummary`). -/
def predict (isin : String) (horizon_days : ℤ) (shocks : Nat → ℚ)
    (confDraw : ℚ) : Except String Prediction :=
  match lookupSecurity isin with
  | none => .error ("Unknown ISIN: " ++ isin)
  | some security =>
    let current_price := security.current_price
    let volatility := security.volatility
    let trend := security.trend
    let drift := simDrift trend
    let signal := simSignal trend
    let predictions := simPoints current_price volatility drift shocks horizon_days.toNat
    match predictions.getLast? with
    | none => .error "IndexError: list index out of range"
    | some lastPt =>
      let final_price := lastPt.predicted_price
      let price_change_pct := (final_price - current_price) / current_price * 100
      .ok { isin := isin
            security_name := security.name
            current_price := current_price
            predictions := predictions
            signal := signal
            confidence := pyRound2 confDraw
            trend := trend
            ai_summary := simSummary trend }

end SimulatedPredictorBackend

/-! ## Kronos raw results and the engine-side normaliser
(`prediction_engine.py` 78-164, `kronos_integration/predictor.py`) -/

/-- One entry of the raw `predictions` list returned by the Kronos
integration backend.  `date` is `none` when the `'date'` key is absent
(the normaliser then defaults to `''`, modelled as offset `0`);
`confidence` is `none` when the `'confidence'` key is absent.
`predicted_price` is a mandatory key. -/
structure RawPoint where
  date : Option Nat
  predicted_price : ℚ
  confidence : Option ℚ
  deriving Repr, DecidableEq

/-- The raw result dict returned by
`kronos_integration.KronosPredictorBackend.predict`.  Only the keys the
engine-side normaliser reads are modelled; `current_price` is `none`
when the key is absent. -/
structure RawResult where
  current_price : Option ℚ
  predictions : List RawPoint
  deriving Repr, DecidableEq

/-- The per-point conversion loop of `KronosPredictorBackend.predict`
(`prediction_engine.py` 109-122). -/
def kronosNormalizePoint (pred_point : RawPoint) : PredictionPoint :=
  let predicted_price := pred_point.predicted_price
  let confidence := pred_point.confidence.getD (85/100)
  let confidence_width := predicted_price * (1 - confidence) * (1/2)
  { date := pred_point.date.getD 0
    predicted_price := predicted_price
    confidence_lower := predicted_price - confidence_width
    confidence_upper := predicted_price + confidence_width }

namespace KronosPredictorBackend

/-- `KronosPredictorBackend.predict` of `prediction_engine.py`
(99-164): normalises the raw backend result `raw` (the value of
`self._backend.predict(isin, horizon_days)`).  The numeric
interpolation of the summary text is abstracted away; its two template
texts still distinguish the populated and the empty-forecast branch. -/
def predict (isin : String) (horizon_days : ℤ) (raw : RawResult) :
    Prediction :=
  let predictions := raw.predictions.map kronosNormalizePoint
  let current_price := raw.current_price.getD 100
  let (signal, trend, confidence_score, ai_summary) :=
    match predictions.getLast? with
    | some lastPt =>
      let final_price := lastPt.predicted_price
      let price_change_pct := (final_price - current_price) / current_price * 100
      let stc : String × String × ℚ :=
        if price_change_pct > 2 then ("BUY", "bullish", 85/100)
        else if price_change_pct < -2 then ("SELL", "bearish", 82/100)
        else ("HOLD", "neutral", 75/100)
      (stc.1, stc.2.1, stc.2.2,
       "Kronos model predicts a move over the horizon.")
    | none => ("HOLD", "neutral", 1/2, "Insufficient data for prediction")
  let security_name := ((lookupSecurity isin).map (fun s => s.name)).getD "Unknown Security"
  { isin := isin
    security_name := security_name
    current_price := current_price
    predictions := predictions
    signal := signal
    confidence := confidence_score
    trend := trend
    ai_summary := ai_summary }

end KronosPredictorBackend

/-- The daily-extraction loop of
`kronos_integration.KronosPredictorBackend.predict`
(`kronos_integration/predictor.py` 124-137): keep the last of each
day's 78 intraday model rows, skipping days whose index runs past the
end of the model output.  `pred_close` is the `close` column of
`pred_df`. -/
def kronosDailyPredictions (pred_close : List ℚ) (horizon_days : Nat) :
    List RawPoint :=
  (List.range horizon_days).filterMap fun day =>
    (pred_close[(day + 1) * 78 - 1]?).map fun price =>
      { date := some (day + 1)
        predicted_price := price
        confidence := some (85/100) }

/-- The raw result dict assembled by
`kronos_integration.KronosPredictorBackend.predict` (142-162), with
the the keys the normaliser reads. -/
def kronosRawResult (pred_close : List ℚ) (horizon_days : Nat)
    (current_price : ℚ) : RawResult :=
  { current_price := some current_price
    predictions := kronosDailyPredictions pred_close horizon_days }

/-- The full model-backed pipeline on a successful data fetch: the
integration layer's raw result (from model output `pred_close` and the
live `current_price`) fed through the engine-side normaliser. -/
def kronosPipelinePredict (isin : String) (horizon_days : ℤ)
    (pred_close : List ℚ) (current_price : ℚ) : Prediction :=
  KronosPredictorBackend.predict isin horizon_days
    (kronosRawResult pred_close horizon_days.toNat current_price)

/-! ## `RealDataFallbackPredictor.predict` (`fallback_predictor.py`) -/

/-- `prices[-n:]` — the last `n` elements of a list. -/
def lastN (n : Nat) (l : List ℚ) : List ℚ := l.drop (l.length - n)

namespace RealDataFallbackPredictor

/-- `sma_short = np.mean(prices[-5:]) if len(prices) >= 5 else
current_price` (`fallback_predictor.py` 66). -/
def sma_short (prices : List ℚ) (current_price : ℚ) : ℚ :=
  if 5 ≤ prices.length then (lastN 5 prices).sum / 5 else current_price

/-- `sma_long = np.mean(prices[-20:]) if len(prices) >= 20 else
current_price` (`fallback_predictor.py` 67). -/
def sma_long (prices : List ℚ) (current_price : ℚ) : ℚ :=
  if 20 ≤ prices.length then (lastN 20 prices).sum / 20 else current_price

/-- Trend classification from the two moving averages
(`fallback_predictor.py` 74-82). -/
def classifyTrend (s l : ℚ) : String :=
  if s > l * (101/100) then "bullish"
  else if s < l * (99/100) then "bearish"
  else "neutral"

/-- The momentum computation of `RealDataFallbackPredictor.predict`
(`fallback_predictor.py` 70 and 89): the total fractional price change
over the window (`0` for an empty window), divided by the number of
points (`0.001` for an empty window). -/
def fallbackDailyChangePct (prices : List ℚ) : ℚ :=
  let price_change :=
    match prices.head?, prices.getLast? with
    | some p0, some pl => (pl - p0) / p0
    | _, _ => 0
  if 0 < prices.length then price_change / (prices.length : ℚ) else 1/1000

/-- The per-day forecast loop of `RealDataFallbackPredictor.predict`
(`fallback_predictor.py` 92-109): the running price is multiplied each
day by the trend factor and a noise factor; the confidence half-width
is constant.  `noise i` is the `np.random.randn()` draw of iteration
`day = i + 1`; `k` counts the remaining days. -/
def fallbackPoints (daily_change_pct vol : ℚ) (noise : Nat → ℚ)
    (price : ℚ) (i : Nat) : Nat → List PredictionPoint
  | 0 => []
  | k + 1 =>
    let trend_factor := 1 + daily_change_pct * (3/2)
    let noise_factor := 1 + noise i * (1/100)
    let predicted_price := price * trend_factor * noise_factor
    let confidence_width := vol * (1/2)
    { date := i + 1
      predicted_price := predicted_price
      confidence_lower := predicted_price - confidence_width
      confidence_upper := predicted_price + confidence_width }
      :: fallbackPoints daily_change_pct vol noise predicted_price (i + 1) k

/-- `RealDataFallbackPredictor.predict` (`fallback_predictor.py`
35-150).  `prices` is the `close` column of the fetched history
(non-empty on a successful fetch), `current_price` the live quote,
`vol` models `np.std(prices)` (irrational in general, hence a
parameter; it is always ≥ 0 in the source), `noise` the stream of
`np.random.randn()` draws.  Rational division by zero is `0` in Lean
where Python would raise `ZeroDivisionError`; theorems about this
function keep the prices positive. -/
def predict (isin : String) (horizon_days : ℤ) (prices : List ℚ)
    (current_price vol : ℚ) (noise : Nat → ℚ) : Except String Prediction :=
  let sShort := sma_short prices current_price
  let sLong := sma_long prices current_price
  let trend := classifyTrend sShort sLong
  let daily_change_pct := fallbackDailyChangePct prices
  let predictions :=
    fallbackPoints daily_change_pct vol noise current_price 0 horizon_days.toNat
  match predictions.getLast? with
  | none => .error "IndexError: list index out of range"
  | some lastPt =>
    let final_price := lastPt.predicted_price
    let price_change_pct := (final_price - current_price) / current_price * 100
    let (signal, confidence_score) : String × ℚ :=
      if price_change_pct > 2 then ("BUY", 75/100)
      else if price_change_pct < -2 then ("SELL", 72/100)
      else ("HOLD", 70/100)
    let security_name := ((lookupSecurity isin).map (fun s => s.name)).getD "Unknown Security"
    .ok { isin := isin
          security_name := security_name
          current_price := current_price
          predictions := predictions
          signal := signal
          confidence := confidence_score
          trend := trend
          ai_summary := "Trend-based analysis predicts a movement. Market " ++ trend
            ++ ". [Kronos model unavailable - using statistical forecasting]" }

end RealDataFallbackPredictor

/-! ## Backend selection and module lifecycle
(`prediction_engine.py` 88-97, 238-263) -/

/-- Python's `str.lower()` (ASCII range, which covers every mode
string the selector compares against).  Defined over the character
list so that it evaluates inside the kernel. -/
def pyLower (s : String) : String := ⟨s.data.map Char.toLower⟩

/-- A Python exception, classified the way `_determine_backend`
classifies it: a `RuntimeError` or any other exception class. -/
inductive PyExc where
  | runtimeError (msg : String)
  | otherError (msg : String)
  deriving Repr, DecidableEq

/-- The two backend classes `_determine_backend` can instantiate. -/
inductive BackendKind where
  | kronos
  | simulated
  deriving Repr, DecidableEq

/-- `KronosPredictorBackend.__init__` of `prediction_engine.py`
(88-97): a failing `from kronos_integration import ...` is wrapped in a
`RuntimeError`; otherwise `RealKronosBackend()` runs and its outcome
(`innerInit`, success or any exception from
`kronos_integration.KronosPredictorBackend.__init__`) passes through
unwrapped. -/
def kronosEngineInit (importOk : Bool) (innerInit : Except PyExc Unit) :
    Except PyExc Unit :=
  if importOk then innerInit
  else .error (.runtimeError
    "Kronos integration not available. Install dependencies or set KRONOS_MODE=simulated.")

/-- `_determine_backend` (`prediction_engine.py` 238-251).  `modeEnv`
is `os.getenv("KRONOS_MODE")` (`none` when unset, defaulted to
`"auto"`), `kronosInit` the outcome of `KronosPredictorBackend()`.
Only a `RuntimeError` is caught; under `auto` it selects the simulated
backend, under any other non-`simulated` mode it is re-raised; any
other exception class propagates unconditionally. -/
def _determine_backend (modeEnv : Option String)
    (kronosInit : Except PyExc Unit) : Except PyExc BackendKind :=
  let mode := pyLower (modeEnv.getD "auto")
  if mode = "simulated" then .ok .simulated
  else
    match kronosInit with
    | .ok _ => .ok .kronos
    | .error (.runtimeError msg) =>
      if mode = "auto" then .ok .simulated else .error (.runtimeError msg)
    | .error (.otherError msg) => .error (.otherError msg)

/-- Observable lifecycle events of the engine module: attempting the
Kronos constructor (which performs the weight download) and completing
the construction of a backend instance; serving one
`generate_prediction` request. -/
inductive EngineEvent where
  | attemptKronosInit
  | constructBackend (kind : BackendKind)
  | serveRequest
  deriving Repr, DecidableEq

/-- Whether an event is backend-construction work. -/
def EngineEvent.isConstructionWork : EngineEvent → Bool
  | .attemptKronosInit => true
  | .constructBackend _ => true
  | .serveRequest => false

/-- Whether an event is the completed construction of a backend
instance. -/
def EngineEvent.isBackendConstruction : EngineEvent → Bool
  | .constructBackend _ => true
  | _ => false

/-- The events produced by executing the module body of
`prediction_engine.py`: line 254 runs `_determine_backend()` at import
time, which constructs exactly one backend instance (attempting the
Kronos constructor first unless overridden). -/
def importEvents (modeEnv : Option String)
    (kronosInit : Except PyExc Unit) : List EngineEvent :=
  let mode := pyLower (modeEnv.getD "auto")
  if mode = "simulated" then [.constructBackend .simulated]
  else
    match kronosInit with
    | .ok _ => [.attemptKronosInit, .constructBackend .kronos]
    | .error (.runtimeError _) =>
      if mode = "auto" then [.attemptKronosInit, .constructBackend .simulated]
      else [.attemptKronosInit]
    | .error (.otherError _) => [.attemptKronosInit]

/-- The events of a whole process lifetime: the module import followed
by `numCalls` calls to `generate_prediction`, whose body (257-263)
only reads the cached `PREDICTOR_BACKEND` and never constructs a
backend. -/
def lifecycleEvents (modeEnv : Option String)
    (kronosInit : Except PyExc Unit) (numCalls : Nat) : List EngineEvent :=
  importEvents modeEnv kronosInit ++ List.replicate numCalls .serveRequest

/-- The backend handle `generate_prediction` uses on its `n`-th call:
always the module-level `PREDICTOR_BACKEND` computed at import. -/
def backendForCall (modeEnv : Option String)
    (kronosInit : Except PyExc Unit) (_callIndex : Nat) : Except PyExc BackendKind :=
  _determine_backend modeEnv kronosInit

/-! ## The facade `generate_prediction` (`prediction_engine.py` 257-263) -/

/-- The per-request inputs of the opaque collaborators: the simulated
backend's random draws, and the Kronos pipeline's model output and
live price. -/
structure BackendInputs where
  shocks : Nat → ℚ
  confDraw : ℚ
  pred_close : List ℚ
  kron_current_price : ℚ

/-- `PREDICTOR_BACKEND.predict(isin, horizon_days)`: virtual dispatch
on the selected backend class. -/
def predictWith (backend : BackendKind) (inp : BackendInputs)
    (isin : String) (horizon_days : ℤ) : Except String Prediction :=
  match backend with
  | .simulated => SimulatedPredictorBackend.predict isin horizon_days inp.shocks inp.confDraw
  | .kronos => .ok (kronosPipelinePredict isin horizon_days inp.pred_close inp.kron_current_price)

/-- `generate_prediction` (`prediction_engine.py` 257-263): validates
the horizon, then delegates to the cached backend. -/
def generate_prediction (backend : BackendKind) (inp : BackendInputs)
    (isin : String) (horizon_days : ℤ) : Except String Prediction :=
  if horizon_days ≤ 0 then .error "horizon_days must be positive"
  else predictWith backend inp isin horizon_days

/-! ## Spec-side definitions (from the wording of the specification,
for comparison with the code's behaviour) -/

/-- The spec's §4.3 threshold mapping from the final-day percentage
change to the signal. -/
def thresholdSignal (price_change_pct : ℚ) : String :=
  if price_change_pct > 2 then "BUY"
  else if price_change_pct < -2 then "SELL"
  else "HOLD"

/-- The spec's §4.3 threshold mapping from the final-day percentage
change to the trend. -/
def thresholdTrend (price_change_pct : ℚ) : String :=
  if price_change_pct > 2 then "bullish"
  else if price_change_pct < -2 then "bearish"
  else "neutral"

/-- The spec's signal/trend consistency predicate (§3, §8). -/
def signalTrendConsistent (p : Prediction) : Prop :=
  (p.signal = "BUY" → p.trend = "bullish") ∧
  (p.signal = "SELL" → p.trend = "bearish") ∧
  (p.signal = "HOLD" → p.trend = "neutral")

instance (p : Prediction) : Decidable (signalTrendConsistent p) := by
  unfold signalTrendConsistent; infer_instance

/-- The arithmetic mean of a list, as `np.mean` computes it — the
spec's "mean of all available points". -/
def listMean (l : List ℚ) : ℚ := l.sum / l.length

/-- Extract the payload of a successful backend call, for stating
concrete scenarios; an error yields the placeholder. -/
def getOk (e : Except String Prediction) (dflt : Prediction) : Prediction :=
  match e with
  | .ok p => p
  | .error _ => dflt

/-- A placeholder `Prediction` (used only as the error-side default of
`getOk` in concrete scenarios). -/
def emptyPrediction : Prediction :=
  { isin := "", security_name := "", current_price := 0, predictions := []
    signal := "", confidence := 0, trend := "", ai_summary := "" }

/-- A placeholder `PredictionPoint` (the default of `getD` when a
scenario projects out the last forecast point). -/
def zeroPoint : PredictionPoint :=
  { date := 0, predicted_price := 0, confidence_lower := 0, confidence_upper := 0 }

/-- Concrete scenario: the simulated backend on the bullish catalog
entry, horizon 1, all normal draws 0, confidence draw 0.8. -/
def simScenarioBull : Prediction :=
  getOk (SimulatedPredictorBackend.predict "US67066G1040" 1 (fun _ => 0) (4/5))
    emptyPrediction

/-- Concrete scenario: the real-data trend backend on a flat one-point
history at price 100, horizon 1, zero volatility and zero noise. -/
def fallbackScenarioFlat : Prediction :=
  getOk (RealDataFallbackPredictor.predict "US67066G1040" 1 [100] 100 0 (fun _ => 0))
    emptyPrediction

/-- Concrete scenario: the real-data trend backend on a five-point
window that fell from 200 to 105 while the live price is 100, horizon
1, zero volatility and zero noise. -/
def fallbackScenarioDrop : Prediction :=
  getOk (RealDataFallbackPredictor.predict "US0378331005" 1
    [200, 150, 120, 110, 105] 100 0 (fun _ => 0)) emptyPrediction

/-- Concrete scenario: the real-data trend backend on a five-point
window flat at 10 while the live price is 100 (so fewer than 20 points
are available), horizon 1, zero volatility (`np.std` of a constant
window is exactly 0) and zero noise. -/
def fallbackScenarioTen : Prediction :=
  getOk (RealDataFallbackPredictor.predict "US67066G1040" 1
    [10, 10, 10, 10, 10] 100 0 (fun _ => 0)) emptyPrediction

/-! ## Helper lemmas -/

theorem floor_le_roundHalfEven (q : ℚ) : ⌊q⌋ ≤ roundHalfEven q := by
  unfold roundHalfEven
  split_ifs <;> omega

theorem roundHalfEven_le_floor_add_one (q : ℚ) : roundHalfEven q ≤ ⌊q⌋ + 1 := by
  unfold roundHalfEven
  split_ifs <;> omega

theorem roundHalfEven_mono {a b : ℚ} (hab : a ≤ b) :
    roundHalfEven a ≤ roundHalfEven b := by
  rcases lt_or_eq_of_le (Int.floor_le_floor hab) with hf | hf
  · calc roundHalfEven a ≤ ⌊a⌋ + 1 := roundHalfEven_le_floor_add_one a
      _ ≤ ⌊b⌋ := by omega
      _ ≤ roundHalfEven b := floor_le_roundHalfEven b
  · unfold roundHalfEven
    rw [hf]
    have hcast : ((⌊a⌋ : ℚ)) = ((⌊b⌋ : ℚ)) := by rw [hf]
    split_ifs <;> first
      | omega
      | (exfalso; linarith)

theorem pyRound2_mono {a b : ℚ} (hab : a ≤ b) : pyRound2 a ≤ pyRound2 b := by
  unfold pyRound2
  have h := roundHalfEven_mono (mul_le_mul_of_nonneg_right hab (by norm_num : (0:ℚ) ≤ 100))
  have : ((roundHalfEven (a * 100) : ℚ)) ≤ (roundHalfEven (b * 100) : ℚ) := by
    exact_mod_cast h
  linarith

theorem pyRound2_pos {p : ℚ} (hp : 1/100 ≤ p) : 0 < pyRound2 p := by
  unfold pyRound2
  have h1 : (1 : ℚ) ≤ p * 100 := by linarith
  have h2 : (1 : ℤ) ≤ ⌊p * 100⌋ := Int.le_floor.mpr (by exact_mod_cast h1)
  have h3 : (1 : ℤ) ≤ roundHalfEven (p * 100) := le_trans h2 (floor_le_roundHalfEven _)
  have : (1 : ℚ) ≤ (roundHalfEven (p * 100) : ℚ) := by exact_mod_cast h3
  linarith

theorem lookupSecurity_cases {isin : String} {sec : SecurityInfo}
    (h : lookupSecurity isin = some sec) :
    sec = ⟨"NVIDIA Corp", 100, 3/100, "bullish"⟩ ∨
    sec = ⟨"Apple Inc", 200, 2/100, "neutral"⟩ ∨
    sec = ⟨"Microsoft Corp", 355/10, 25/1000, "bullish"⟩ := by
  unfold lookupSecurity at h
  rcases Option.map_eq_some'.mp h with ⟨e, hfind, rfl⟩
  have hmem : e ∈ SECURITIES := List.mem_of_find?_eq_some hfind
  simp only [SECURITIES, List.mem_cons, List.not_mem_nil, or_false] at hmem
  rcases hmem with h1 | h1 | h1 <;> simp [h1]

theorem lookupSecurity_facts {isin : String} {sec : SecurityInfo}
    (h : lookupSecurity isin = some sec) :
    2 ≤ sec.current_price ∧ 0 < sec.volatility ∧
      (sec.trend = "bullish" ∨ sec.trend = "neutral") := by
  rcases lookupSecurity_cases h with h1 | h1 | h1 <;> subst h1 <;> norm_num

theorem simPoints_length (cp vol drift : ℚ) (shocks : Nat → ℚ) (h : Nat) :
    (simPoints cp vol drift shocks h).length = h := by
  simp [simPoints]

theorem simPoints_dates (cp vol drift : ℚ) (shocks : Nat → ℚ) (h : Nat) :
    (simPoints cp vol drift shocks h).map (fun pt => pt.date) = List.range' 1 h := by
  simp only [simPoints, List.map_map, List.range'_eq_map_range]
  refine List.map_congr_left fun i _ => ?_
  simp [Nat.add_comm]

theorem simPoints_mem {cp vol drift : ℚ} {shocks : Nat → ℚ} {h : Nat}
    {pt : PredictionPoint} (hm : pt ∈ simPoints cp vol drift shocks h) :
    ∃ i, i < h ∧
      pt = { date := i + 1
             predicted_price := pyRound2 (cp + cp * (drift + shocks i) * ((i + 1 : Nat) : ℚ))
             confidence_lower := pyRound2 (cp + cp * (drift + shocks i) * ((i + 1 : Nat) : ℚ)
               - vol * cp * (1 + 3/10 * ((i + 1 : Nat) : ℚ)))
             confidence_upper := pyRound2 (cp + cp * (drift + shocks i) * ((i + 1 : Nat) : ℚ)
               + vol * cp * (1 + 3/10 * ((i + 1 : Nat) : ℚ))) } := by
  simp only [simPoints, List.mem_map, List.mem_range] at hm
  rcases hm with ⟨i, hi, rfl⟩
  exact ⟨i, hi, rfl⟩

namespace RealDataFallbackPredictor

theorem fallbackPoints_length (dcp vol : ℚ) (noise : Nat → ℚ) :
    ∀ (k : Nat) (price : ℚ) (i : Nat),
      (fallbackPoints dcp vol noise price i k).length = k := by
  intro k
  induction k with
  | zero => intro price i; rfl
  | succ k ih => intro price i; simp [fallbackPoints, ih]

theorem fallbackPoints_dates (dcp vol : ℚ) (noise : Nat → ℚ) :
    ∀ (k : Nat) (price : ℚ) (i : Nat),
      (fallbackPoints dcp vol noise price i k).map (fun pt => pt.date) =
        List.range' (i + 1) k := by
  intro k
  induction k with
  | zero => intro price i; rfl
  | succ k ih =>
    intro price i
    rw [List.range'_succ]
    simp [fallbackPoints, ih]

theorem fallbackPoints_interval (dcp vol : ℚ) (noise : Nat → ℚ)
    (hvol : 0 ≤ vol) :
    ∀ (k : Nat) (price : ℚ) (i : Nat),
      ∀ pt ∈ fallbackPoints dcp vol noise price i k,
        pt.confidence_lower ≤ pt.predicted_price ∧
          pt.predicted_price ≤ pt.confidence_upper := by
  intro k
  induction k with
  | zero => intro price i pt hm; simp [fallbackPoints] at hm
  | succ k ih =>
    intro price i pt hm
    simp only [fallbackPoints, List.mem_cons] at hm
    rcases hm with rfl | hm
    · constructor <;> simp <;> linarith
    · exact ih _ _ pt hm

theorem fallbackPoints_pos (dcp vol : ℚ) (noise : Nat → ℚ)
    (htf : 0 < 1 + dcp * (3/2)) (hnf : ∀ j, 0 < 1 + noise j * (1/100)) :
    ∀ (k : Nat) (price : ℚ) (i : Nat), 0 < price →
      ∀ pt ∈ fallbackPoints dcp vol noise price i k, 0 < pt.predicted_price := by
  intro k
  induction k with
  | zero => intro price i _ pt hm; simp [fallbackPoints] at hm
  | succ k ih =>
    intro price i hprice pt hm
    have hnext : 0 < price * (1 + dcp * (3/2)) * (1 + noise i * (1/100)) :=
      mul_pos (mul_pos hprice htf) (hnf i)
    simp only [fallbackPoints, List.mem_cons] at hm
    rcases hm with rfl | hm
    · exact hnext
    · exact ih _ _ hnext pt hm

end RealDataFallbackPredictor

theorem kronosDailyPredictions_eq (pred_close : List ℚ) :
    ∀ h : Nat, kronosDailyPredictions pred_close h =
      (List.range (min h (pred_close.length / 78))).map fun day =>
        { date := some (day + 1)
          predicted_price := pred_close.getD ((day + 1) * 78 - 1) 0
          confidence := some (85/100) } := by
  intro h
  induction h with
  | zero => simp [kronosDailyPredictions]
  | succ h ih =>
    unfold kronosDailyPredictions at ih ⊢
    rw [List.range_succ, List.filterMap_append, ih]
    by_cases hlt : h < pred_close.length / 78
    · have hidx : (h + 1) * 78 - 1 < pred_close.length := by omega
      have hmin1 : min (h + 1) (pred_close.length / 78) = h + 1 := by omega
      have hmin0 : min h (pred_close.length / 78) = h := by omega
      rw [hmin1, hmin0, List.range_succ, List.map_append]
      congr 1
      simp [List.filterMap_cons, List.getElem?_eq_getElem hidx,
        List.getD_eq_getElem?_getD]
    · have hmin2 : min (h + 1) (pred_close.length / 78) = min h (pred_close.length / 78) := by
        omega
      rw [hmin2]
      have hidx : pred_close.length ≤ (h + 1) * 78 - 1 := by omega
      simp [List.filterMap_cons, List.getElem?_eq_none hidx]

theorem simulated_predict_ok {isin : String} {h : ℤ}
    {shocks : Nat → ℚ} {confDraw : ℚ} {p : Prediction}
    (hp : SimulatedPredictorBackend.predict isin h shocks confDraw = .ok p) :
    ∃ sec, lookupSecurity isin = some sec ∧
      p.predictions = simPoints sec.current_price sec.volatility
        (simDrift sec.trend) shocks h.toNat ∧
      p.signal = simSignal sec.trend ∧
      p.trend = sec.trend ∧
      p.current_price = sec.current_price := by
  unfold SimulatedPredictorBackend.predict at hp
  split at hp
  · exact absurd hp (by simp)
  next sec hl =>
    dsimp only at hp
    split at hp
    · exact absurd hp (by simp)
    next lastPt hg =>
      refine ⟨sec, hl, ?_⟩
      rw [Except.ok.injEq] at hp
      subst hp
      exact ⟨rfl, rfl, rfl, rfl⟩

theorem fallback_predict_ok {isin : String} {h : ℤ}
    {prices : List ℚ} {current_price vol : ℚ} {noise : Nat → ℚ} {p : Prediction}
    (hp : RealDataFallbackPredictor.predict isin h prices current_price vol noise = .ok p) :
    p.predictions = RealDataFallbackPredictor.fallbackPoints
        (RealDataFallbackPredictor.fallbackDailyChangePct prices) vol noise
        current_price 0 h.toNat ∧
      p.trend = RealDataFallbackPredictor.classifyTrend
        (RealDataFallbackPredictor.sma_short prices current_price)
        (RealDataFallbackPredictor.sma_long prices current_price) ∧
      p.current_price = current_price ∧
      (∃ lastPt, p.predictions.getLast? = some lastPt) ∧
      ∀ lastPt, p.predictions.getLast? = some lastPt →
        p.signal = thresholdSignal
          ((lastPt.predicted_price - current_price) / current_price * 100) := by
  unfold RealDataFallbackPredictor.predict at hp
  dsimp only at hp
  split at hp
  · exact absurd hp (by simp)
  next lastPt hg =>
    rw [Except.ok.injEq] at hp
    subst hp
    refine ⟨rfl, rfl, rfl, ⟨lastPt, hg⟩, ?_⟩
    intro lp hlp
    simp only at hlp
    rw [hg, Option.some.injEq] at hlp
    subst hlp
    simp only [thresholdSignal]
    split_ifs <;> rfl

theorem KronosPredictorBackend.predict_predictions (isin : String)
    (h : ℤ) (raw : RawResult) :
    (KronosPredictorBackend.predict isin h raw).predictions =
      raw.predictions.map kronosNormalizePoint := by
  unfold KronosPredictorBackend.predict
  dsimp only

theorem KronosPredictorBackend.predict_current_price (isin : String)
    (h : ℤ) (raw : RawResult) :
    (KronosPredictorBackend.predict isin h raw).current_price =
      raw.current_price.getD 100 := by
  unfold KronosPredictorBackend.predict
  dsimp only

theorem KronosPredictorBackend.predict_signal_trend {isin : String}
    {h : ℤ} {raw : RawResult} {lastPt : PredictionPoint}
    (hg : (raw.predictions.map kronosNormalizePoint).getLast? = some lastPt) :
    (KronosPredictorBackend.predict isin h raw).signal =
        thresholdSignal ((lastPt.predicted_price - raw.current_price.getD 100)
          / raw.current_price.getD 100 * 100) ∧
      (KronosPredictorBackend.predict isin h raw).trend =
        thresholdTrend ((lastPt.predicted_price - raw.current_price.getD 100)
          / raw.current_price.getD 100 * 100) := by
  unfold KronosPredictorBackend.predict
  dsimp only
  rw [hg]
  simp only [thresholdSignal, thresholdTrend]
  split_ifs <;> exact ⟨rfl, rfl⟩

theorem KronosPredictorBackend.predict_empty_signal_trend {isin : String}
    {h : ℤ} {raw : RawResult}
    (hg : (raw.predictions.map kronosNormalizePoint).getLast? = none) :
    (KronosPredictorBackend.predict isin h raw).signal = "HOLD" ∧
      (KronosPredictorBackend.predict isin h raw).trend = "neutral" ∧
      (KronosPredictorBackend.predict isin h raw).confidence = 1/2 := by
  unfold KronosPredictorBackend.predict
  dsimp only
  rw [hg]
  exact ⟨rfl, rfl, rfl⟩

theorem countP_replicate_eq_zero {f : EngineEvent → Bool} {e : EngineEvent}
    (hf : f e = false) (n : Nat) : (List.replicate n e).countP f = 0 := by
  induction n with
  | zero => rfl
  | succ n ih => simp [List.replicate_succ, List.countP_cons, hf, ih]

/-! ## The claims -/

/-- C7: for every security identifier and every `horizon_days ≤ 0`,
`generate_prediction` fails with the invalid-horizon `ValueError`
before any backend forecast is attempted — the result is the same
fixed error for every selected backend and every collaborator input,
so no backend code runs. -/
theorem C7_invalid_horizon_rejected (backend : BackendKind)
    (inp : BackendInputs) (isin : String) (horizon_days : ℤ)
    (h : horizon_days ≤ 0) :
    generate_prediction backend inp isin horizon_days =
      .error "horizon_days must be positive" := by
  unfold generate_prediction
  simp [h]

/-- C7 witness: `generate_prediction(id, 0)` and
`generate_prediction(id, -3)` both fail with the invalid-horizon
error, under either backend. -/
theorem C7_invalid_horizon_rejected_witness :
    ((0 : ℤ) ≤ 0 ∧ (-3 : ℤ) ≤ 0) ∧
    generate_prediction .simulated ⟨fun _ => 0, 0, [], 0⟩ "US67066G1040" 0 =
      .error "horizon_days must be positive" ∧
    generate_prediction .kronos ⟨fun _ => 0, 0, [], 0⟩ "UNKNOWN-ID" (-3) =
      .error "horizon_days must be positive" :=
  ⟨⟨le_refl 0, by norm_num⟩,
   C7_invalid_horizon_rejected .simulated ⟨fun _ => 0, 0, [], 0⟩ "US67066G1040" 0 (by norm_num),
   C7_invalid_horizon_rejected .kronos ⟨fun _ => 0, 0, [], 0⟩ "UNKNOWN-ID" (-3) (by norm_num)⟩

/-- C10: the normaliser does not fail on a raw result without a
current price: it behaves exactly as if the price were the default
`100.0`, anchoring the percentage-change computation (and hence the
signal/trend) there; a raw point without a confidence score is
normalised exactly as one carrying the default confidence `0.85`. -/
theorem C10_normalizer_defaults :
    (∀ (isin : String) (h : ℤ) (ps : List RawPoint),
      KronosPredictorBackend.predict isin h ⟨none, ps⟩ =
        KronosPredictorBackend.predict isin h ⟨some 100, ps⟩) ∧
    (∀ (isin : String) (h : ℤ) (ps : List RawPoint),
      (KronosPredictorBackend.predict isin h ⟨none, ps⟩).current_price = 100) ∧
    (∀ (d : Option Nat) (price : ℚ),
      kronosNormalizePoint ⟨d, price, none⟩ =
        kronosNormalizePoint ⟨d, price, some (85/100)⟩) :=
  ⟨fun _ _ _ => rfl,
   fun isin h ps => KronosPredictorBackend.predict_current_price isin h ⟨none, ps⟩,
   fun _ _ => rfl⟩

/-- C1 counterexample: a construction error that is not a
`RuntimeError` (here the `ValueError` that `int(os.getenv(...))`
raises on a malformed `KRONOS_MAX_CONTEXT`, re-raised unchanged by
`kronos_integration.KronosPredictorBackend.__init__`) propagates under
the `auto` preference instead of selecting the simulated backend — the
selector's `except RuntimeError` does not cover every construction
error. -/
theorem C1_counterexample :
    _determine_backend (some "auto")
        (.error (.otherError "ValueError: invalid literal for int() with base 10")) =
      .error (.otherError "ValueError: invalid literal for int() with base 10") ∧
    Except.error (PyExc.otherError "ValueError: invalid literal for int() with base 10") ≠
      (.ok .simulated : Except PyExc BackendKind) := by
  constructor
  · rfl
  · simp

/-- C1 (amended): during one-time backend selection, a construction
error of class `RuntimeError` (the class the engine wraps the
missing-integration failure in) makes the selector fall back to the
Statistical (simulated) Backend under the `auto` preference (or when
the mode variable is unset), and is re-raised as fatal under any
stricter mode; a construction error of any other exception class
propagates un-caught whatever the (non-`simulated`) mode. -/
theorem C1_amended_runtime_error_fallback :
    (∀ msg, _determine_backend (some "auto") (.error (.runtimeError msg)) =
      .ok .simulated) ∧
    (∀ msg, _determine_backend none (.error (.runtimeError msg)) =
      .ok .simulated) ∧
    (∀ mode msg, pyLower mode ≠ "simulated" → pyLower mode ≠ "auto" →
      _determine_backend (some mode) (.error (.runtimeError msg)) =
        .error (.runtimeError msg)) ∧
    (∀ mode msg, pyLower mode ≠ "simulated" →
      _determine_backend (some mode) (.error (.otherError msg)) =
        .error (.otherError msg)) := by
  refine ⟨fun msg => rfl, fun msg => rfl, ?_, ?_⟩
  · intro mode msg h1 h2
    unfold _determine_backend
    simp [h1, h2]
  · intro mode msg h1
    unfold _determine_backend
    simp [h1]

/-- C1 witness: under the strict mode `"model"` a `RuntimeError` from
construction is re-raised, and a non-`RuntimeError` propagates too. -/
theorem C1_amended_runtime_error_fallback_witness :
    (pyLower "model" ≠ "simulated" ∧ pyLower "model" ≠ "auto") ∧
    _determine_backend (some "model") (.error (.runtimeError "weights unavailable")) =
      .error (.runtimeError "weights unavailable") ∧
    _determine_backend (some "model") (.error (.otherError "boom")) =
      .error (.otherError "boom") :=
  ⟨⟨by decide, by decide⟩,
   C1_amended_runtime_error_fallback.2.2.1 "model" "weights unavailable" (by decide) (by decide),
   C1_amended_runtime_error_fallback.2.2.2 "model" "boom" (by decide)⟩

/-- C6 counterexample: with the `simulated` override (and likewise in
every other mode) the module import itself performs backend
construction work — `PREDICTOR_BACKEND = _determine_backend()` runs at
line 254 of `prediction_engine.py`, at module scope — so the claim
that no backend construction happens at import time and that the
handle is resolved on the first `generate_prediction` call is false. -/
theorem C6_counterexample :
    (importEvents (some "simulated") (.ok ())).countP
        (fun e => e.isConstructionWork) = 1 ∧
    (importEvents (some "simulated") (.ok ())).countP
        (fun e => e.isConstructionWork) ≠ 0 := by
  constructor <;> decide

/-- C6 (amended): the backend handle is resolved eagerly, once, when
the module is imported; every later `generate_prediction` call adds no
construction work (so construction side effects occur at most once per
process, and at most one backend instance is ever constructed), and
every call uses the same cached `PREDICTOR_BACKEND` handle. -/
theorem C6_amended_eager_once (modeEnv : Option String)
    (kronosInit : Except PyExc Unit) (numCalls : Nat) :
    (lifecycleEvents modeEnv kronosInit numCalls).countP
        (fun e => e.isConstructionWork) =
      (importEvents modeEnv kronosInit).countP (fun e => e.isConstructionWork) ∧
    (importEvents modeEnv kronosInit).countP
        (fun e => e.isBackendConstruction) ≤ 1 ∧
    (∀ n m : Nat, backendForCall modeEnv kronosInit n =
      backendForCall modeEnv kronosInit m) := by
  refine ⟨?_, ?_, fun n m => rfl⟩
  · unfold lifecycleEvents
    rw [List.countP_append, countP_replicate_eq_zero rfl]
    omega
  · unfold importEvents
    dsimp only
    split
    · decide
    · split
      · decide
      · split <;> decide
      · decide


theorem roundHalfEven_intCast (n : ℤ) : roundHalfEven (n : ℚ) = n := by
  unfold roundHalfEven
  rw [Int.floor_intCast]
  norm_num

theorem pyRound2_exact (x : ℚ) (n : ℤ) (h : x * 100 = (n : ℚ)) :
    pyRound2 x = (n : ℚ) / 100 := by
  unfold pyRound2
  rw [h, roundHalfEven_intCast]

/-- C2 counterexample: the real-data trend backend derives `trend`
from the moving averages but `signal` from the realised price change,
and the two can disagree — on a window whose recent average is far
above the live price it returns `signal = "SELL"` together with
`trend = "bullish"`, violating the SELL-implies-bearish consistency
rule.  (The `np.std` parameter only affects interval widths, never
signal or trend, and is instantiated at `0`.) -/
theorem C2_counterexample :
    (RealDataFallbackPredictor.predict "US0378331005" 1 [200, 150, 120, 110, 105]
        100 0 (fun _ => 0)).map (fun p => (p.signal, p.trend)) =
      .ok ("SELL", "bullish") ∧
    ¬ signalTrendConsistent fallbackScenarioDrop := by
  constructor
  · unfold RealDataFallbackPredictor.predict
    norm_num [RealDataFallbackPredictor.sma_short, RealDataFallbackPredictor.sma_long,
      RealDataFallbackPredictor.classifyTrend, RealDataFallbackPredictor.fallbackDailyChangePct,
      RealDataFallbackPredictor.fallbackPoints, lastN, lookupSecurity, SECURITIES,
      List.find?, Except.map]
  · unfold fallbackScenarioDrop getOk RealDataFallbackPredictor.predict
    norm_num [RealDataFallbackPredictor.sma_short, RealDataFallbackPredictor.sma_long,
      RealDataFallbackPredictor.classifyTrend, RealDataFallbackPredictor.fallbackDailyChangePct,
      RealDataFallbackPredictor.fallbackPoints, lastN, lookupSecurity, SECURITIES,
      List.find?, signalTrendConsistent]
    exact fun hcontra => absurd hcontra (by decide)

/-- C2 (amended): signal/trend consistency (BUY implies bullish, SELL
implies bearish, HOLD implies neutral) holds for every Prediction of
the model-backed backend's normaliser and of the synthetic simulated
backend; the real-data trend backend does not guarantee it (its trend
comes from the moving averages, its signal from the realised price
change). -/
theorem C2_amended_signal_trend_consistency :
    (∀ (isin : String) (h : ℤ) (raw : RawResult),
      signalTrendConsistent (KronosPredictorBackend.predict isin h raw)) ∧
    (∀ (isin : String) (h : ℤ) (shocks : Nat → ℚ) (confDraw : ℚ) (p : Prediction),
      SimulatedPredictorBackend.predict isin h shocks confDraw = .ok p →
      signalTrendConsistent p) := by
  constructor
  · intro isin h raw
    cases hg : (raw.predictions.map kronosNormalizePoint).getLast? with
    | none =>
      obtain ⟨hs, ht, _⟩ :=
        @KronosPredictorBackend.predict_empty_signal_trend isin h raw hg
      unfold signalTrendConsistent
      rw [hs, ht]
      decide
    | some lastPt =>
      obtain ⟨hs, ht⟩ :=
        @KronosPredictorBackend.predict_signal_trend isin h raw lastPt hg
      unfold signalTrendConsistent
      rw [hs, ht]
      unfold thresholdSignal thresholdTrend
      split_ifs <;> decide
  · intro isin h shocks confDraw p hp
    obtain ⟨sec, hl, _, hsig, htr, _⟩ := simulated_predict_ok hp
    obtain ⟨_, _, htrend⟩ := lookupSecurity_facts hl
    unfold signalTrendConsistent
    rw [hsig, htr]
    rcases htrend with he | he <;> rw [he] <;> decide

/-- C2 witness: the simulated backend's prediction for the bullish
catalog entry at horizon 1 is signal/trend consistent. -/
theorem C2_amended_signal_trend_consistency_witness :
    signalTrendConsistent simScenarioBull :=
  C2_amended_signal_trend_consistency.2 "US67066G1040" 1 (fun _ => 0) (4/5)
    simScenarioBull rfl

/-- C3 counterexample: the synthetic simulated backend derives the
signal from the catalog's configured trend, not from the final-day
percentage change — a bullish catalog entry under a negative shock
forecasts 91.5 against a current price of 100 (a −8.5% change) yet
still returns `signal = "BUY"` and `trend = "bullish"`, where the
claimed threshold rule yields SELL and bearish. -/
theorem C3_counterexample :
    (SimulatedPredictorBackend.predict "US67066G1040" 1 (fun _ => -(1/10)) (4/5)).map
        (fun p => (p.signal, p.trend, p.current_price,
          p.predictions.map (fun pt => pt.predicted_price))) =
      .ok ("BUY", "bullish", 100, [183/2]) ∧
    thresholdSignal ((183/2 - 100) / 100 * 100) = "SELL" ∧
    thresholdTrend ((183/2 - 100) / 100 * 100) = "bearish" := by
  have h1 : pyRound2 (183/2) = 183/2 := by
    rw [pyRound2_exact (183/2) 9150 (by norm_num)]
    norm_num
  refine ⟨?_, ?_, ?_⟩
  · unfold SimulatedPredictorBackend.predict
    norm_num [lookupSecurity, SECURITIES, List.find?, simPoints, simDrift, simSignal,
      Except.map, List.range_succ, List.range_zero, h1]
  · unfold thresholdSignal
    norm_num
  · unfold thresholdTrend
    norm_num

/-- C3 (amended): the threshold derivation of signal and trend from
the final-day percentage change (`> 2` gives BUY/bullish, `< -2` gives
SELL/bearish, otherwise HOLD/neutral) holds for the model-backed
backend's normaliser (both fields, anchored on the raw current price
or its `100.0` default) and for the real-data trend backend's signal;
the synthetic simulated backend instead copies signal and trend from
the catalog's configured trend bias, ignoring the realised change. -/
theorem C3_amended_threshold_derivation :
    (∀ (isin : String) (h : ℤ) (raw : RawResult), raw.predictions ≠ [] →
      (KronosPredictorBackend.predict isin h raw).signal =
        thresholdSignal
          ((((raw.predictions.map kronosNormalizePoint).getLast?.getD zeroPoint).predicted_price
            - raw.current_price.getD 100) / raw.current_price.getD 100 * 100) ∧
      (KronosPredictorBackend.predict isin h raw).trend =
        thresholdTrend
          ((((raw.predictions.map kronosNormalizePoint).getLast?.getD zeroPoint).predicted_price
            - raw.current_price.getD 100) / raw.current_price.getD 100 * 100)) ∧
    (∀ (isin : String) (h : ℤ) (prices : List ℚ) (cp vol : ℚ)
        (noise : Nat → ℚ) (p : Prediction),
      RealDataFallbackPredictor.predict isin h prices cp vol noise = .ok p →
      p.signal = thresholdSignal
        (((p.predictions.getLast?.getD zeroPoint).predicted_price - cp) / cp * 100)) := by
  constructor
  · intro isin h raw hne
    have hne2 : raw.predictions.map kronosNormalizePoint ≠ [] := by
      simpa using hne
    obtain ⟨l, hl⟩ := Option.isSome_iff_exists.mp (List.getLast?_isSome.mpr hne2)
    rw [hl, Option.getD_some]
    exact KronosPredictorBackend.predict_signal_trend hl
  · intro isin h prices cp vol noise p hp
    obtain ⟨_, _, _, ⟨l, hl⟩, hsig⟩ := fallback_predict_ok hp
    rw [hl, Option.getD_some]
    exact hsig l hl

/-- C3 witness: the threshold derivation evaluated on a concrete
model-backed raw result (one raw point at 110 against anchor 100) and
on a concrete real-data run (flat history at 100). -/
theorem C3_amended_threshold_derivation_witness :
    ((KronosPredictorBackend.predict "US67066G1040" 5
        ⟨some 100, [⟨some 1, 110, none⟩]⟩).signal =
      thresholdSignal
        (((([(⟨some 1, 110, none⟩ : RawPoint)].map kronosNormalizePoint).getLast?.getD
          zeroPoint).predicted_price - 100) / 100 * 100) ∧
     (KronosPredictorBackend.predict "US67066G1040" 5
        ⟨some 100, [⟨some 1, 110, none⟩]⟩).trend =
      thresholdTrend
        (((([(⟨some 1, 110, none⟩ : RawPoint)].map kronosNormalizePoint).getLast?.getD
          zeroPoint).predicted_price - 100) / 100 * 100)) ∧
    fallbackScenarioFlat.signal =
      thresholdSignal
        (((fallbackScenarioFlat.predictions.getLast?.getD zeroPoint).predicted_price
          - 100) / 100 * 100) :=
  ⟨C3_amended_threshold_derivation.1 "US67066G1040" 5
      ⟨some 100, [⟨some 1, 110, none⟩]⟩ (List.cons_ne_nil _ _),
   C3_amended_threshold_derivation.2 "US67066G1040" 1 [100] 100 0 (fun _ => 0)
      fallbackScenarioFlat rfl⟩

theorem kronosPipeline_length (isin : String) (h : ℤ) (pc : List ℚ) (cp : ℚ) :
    (kronosPipelinePredict isin h pc cp).predictions.length =
      min h.toNat (pc.length / 78) := by
  rw [kronosPipelinePredict, KronosPredictorBackend.predict_predictions]
  show ((kronosDailyPredictions pc h.toNat).map kronosNormalizePoint).length = _
  rw [kronosDailyPredictions_eq]
  simp

theorem kronosPipeline_dates (isin : String) (h : ℤ) (pc : List ℚ) (cp : ℚ) :
    (kronosPipelinePredict isin h pc cp).predictions.map (fun pt => pt.date) =
      List.range' 1 (min h.toNat (pc.length / 78)) := by
  rw [kronosPipelinePredict, KronosPredictorBackend.predict_predictions]
  show ((kronosDailyPredictions pc h.toNat).map kronosNormalizePoint).map _ = _
  rw [kronosDailyPredictions_eq]
  simp only [List.map_map, List.range'_eq_map_range]
  refine List.map_congr_left fun i _ => ?_
  simp [kronosNormalizePoint, Nat.add_comm]

/-- C4 counterexample: a successful model-backed prediction need not
have `h` points — when the model output is shorter than the 78 rows a
day requires, the daily extraction returns only the obtainable prefix;
with an empty model output and horizon 1 the pipeline still succeeds
(HOLD, no error) but carries 0 ≠ 1 forecast points. -/
theorem C4_counterexample :
    (kronosPipelinePredict "US67066G1040" 1 [] 100).predictions.length = 0 ∧
    (kronosPipelinePredict "US67066G1040" 1 [] 100).signal = "HOLD" ∧
    (0 : Nat) ≠ (1 : ℤ).toNat := by
  refine ⟨?_, rfl, by decide⟩
  rw [kronosPipelinePredict, KronosPredictorBackend.predict_predictions]
  rfl

/-- C4 (amended): for every horizon `h > 0`, the synthetic simulated
backend and the real-data trend backend produce exactly `h` points
with consecutive dates `1, …, h` (strictly increasing, gap-free); the
model-backed pipeline produces `min h (rows/78)` points — exactly `h`
when the model returned at least `78·h` rows and only the obtainable
prefix otherwise — again with consecutive strictly increasing dates. -/
theorem C4_amended_horizon_points :
    (∀ (isin : String) (h : ℤ) (shocks : Nat → ℚ) (confDraw : ℚ) (p : Prediction),
      0 < h → SimulatedPredictorBackend.predict isin h shocks confDraw = .ok p →
      p.predictions.length = h.toNat ∧
      p.predictions.map (fun pt => pt.date) = List.range' 1 h.toNat) ∧
    (∀ (isin : String) (h : ℤ) (prices : List ℚ) (cp vol : ℚ)
        (noise : Nat → ℚ) (p : Prediction),
      0 < h → RealDataFallbackPredictor.predict isin h prices cp vol noise = .ok p →
      p.predictions.length = h.toNat ∧
      p.predictions.map (fun pt => pt.date) = List.range' 1 h.toNat) ∧
    (∀ (isin : String) (h : ℤ) (pred_close : List ℚ) (cp : ℚ), 0 < h →
      (kronosPipelinePredict isin h pred_close cp).predictions.length =
        min h.toNat (pred_close.length / 78) ∧
      (kronosPipelinePredict isin h pred_close cp).predictions.map (fun pt => pt.date) =
        List.range' 1 (min h.toNat (pred_close.length / 78))) := by
  refine ⟨?_, ?_, ?_⟩
  · intro isin h shocks confDraw p _ hp
    obtain ⟨sec, _, hpred, _, _, _⟩ := simulated_predict_ok hp
    rw [hpred]
    exact ⟨simPoints_length _ _ _ _ _, simPoints_dates _ _ _ _ _⟩
  · intro isin h prices cp vol noise p _ hp
    obtain ⟨hpred, _, _, _, _⟩ := fallback_predict_ok hp
    rw [hpred]
    exact ⟨RealDataFallbackPredictor.fallbackPoints_length _ _ _ _ _ _,
      RealDataFallbackPredictor.fallbackPoints_dates _ _ _ _ _ _⟩
  · intro isin h pred_close cp _
    exact ⟨kronosPipeline_length isin h pred_close cp,
      kronosPipeline_dates isin h pred_close cp⟩

/-- C4 witness: concrete point counts and date sequences — one point
dated day 1 for the simulated and the real-data scenarios at horizon
1, and three points dated 1, 2, 3 for the model-backed pipeline on 234
model rows (3 complete days) at horizon 3. -/
theorem C4_amended_horizon_points_witness :
    ((0 : ℤ) < 1 ∧ (0 : ℤ) < 3) ∧
    (simScenarioBull.predictions.length = (1 : ℤ).toNat ∧
      simScenarioBull.predictions.map (fun pt => pt.date) =
        List.range' 1 (1 : ℤ).toNat) ∧
    (fallbackScenarioFlat.predictions.length = (1 : ℤ).toNat ∧
      fallbackScenarioFlat.predictions.map (fun pt => pt.date) =
        List.range' 1 (1 : ℤ).toNat) ∧
    ((kronosPipelinePredict "US67066G1040" 3 (List.replicate 234 50) 100).predictions.length =
        min (3 : ℤ).toNat ((List.replicate 234 (50 : ℚ)).length / 78) ∧
      (kronosPipelinePredict "US67066G1040" 3 (List.replicate 234 50) 100).predictions.map
          (fun pt => pt.date) =
        List.range' 1 (min (3 : ℤ).toNat ((List.replicate 234 (50 : ℚ)).length / 78))) :=
  ⟨⟨by norm_num, by norm_num⟩,
   C4_amended_horizon_points.1 "US67066G1040" 1 (fun _ => 0) (4/5) simScenarioBull
     (by norm_num) rfl,
   C4_amended_horizon_points.2.1 "US67066G1040" 1 [100] 100 0 (fun _ => 0)
     fallbackScenarioFlat (by norm_num) rfl,
   C4_amended_horizon_points.2.2 "US67066G1040" 3 (List.replicate 234 50) 100
     (by norm_num)⟩

/-- C5 counterexample: the interval invariant fails on the
model-backed path when the (unconstrained) model emits a negative
price — the confidence width `price·(1−0.85)·0.5` becomes negative,
so `confidence_lower > predicted_price > confidence_upper`; with 78
model rows all at −100 the single normalised point is
`(−92.5, −100, −107.5)`. -/
theorem C5_counterexample :
    (kronosPipelinePredict "US67066G1040" 1 (List.replicate 78 (-100)) 100).predictions.map
        (fun pt => (pt.confidence_lower, pt.predicted_price, pt.confidence_upper)) =
      [(-(185/2), -100, -(215/2))] ∧
    ¬ ((-(185/2) : ℚ) ≤ -100) := by
  constructor
  · rw [kronosPipelinePredict, KronosPredictorBackend.predict_predictions]
    show ((kronosDailyPredictions (List.replicate 78 (-100)) (1 : ℤ).toNat).map
      kronosNormalizePoint).map _ = _
    norm_num [kronosDailyPredictions, kronosNormalizePoint, List.range_succ,
      List.range_zero, List.getElem?_replicate, List.filterMap_cons,
      List.filterMap_nil, Function.comp]
  · norm_num

/-- C5 (amended): `confidence_lower ≤ predicted_price ≤
confidence_upper` holds for every point of the synthetic simulated
backend (unconditionally, for any catalog security and any draws), for
every point of the real-data trend backend (whose width is the
nonnegative `np.std/2`), and for every point of the model-backed
normaliser provided each raw point carries a nonnegative price and a
confidence at most 1 (as the integration layer's fixed 0.85 does);
a negative raw model price violates it. -/
theorem C5_amended_interval_invariant :
    (∀ (isin : String) (h : ℤ) (shocks : Nat → ℚ) (confDraw : ℚ) (p : Prediction),
      SimulatedPredictorBackend.predict isin h shocks confDraw = .ok p →
      ∀ pt ∈ p.predictions,
        pt.confidence_lower ≤ pt.predicted_price ∧
        pt.predicted_price ≤ pt.confidence_upper) ∧
    (∀ (isin : String) (h : ℤ) (prices : List ℚ) (cp vol : ℚ)
        (noise : Nat → ℚ) (p : Prediction),
      0 ≤ vol → RealDataFallbackPredictor.predict isin h prices cp vol noise = .ok p →
      ∀ pt ∈ p.predictions,
        pt.confidence_lower ≤ pt.predicted_price ∧
        pt.predicted_price ≤ pt.confidence_upper) ∧
    (∀ (isin : String) (h : ℤ) (raw : RawResult),
      (∀ rp ∈ raw.predictions,
        0 ≤ rp.predicted_price ∧ rp.confidence.getD (85/100) ≤ 1) →
      ∀ pt ∈ (KronosPredictorBackend.predict isin h raw).predictions,
        pt.confidence_lower ≤ pt.predicted_price ∧
        pt.predicted_price ≤ pt.confidence_upper) := by
  refine ⟨?_, ?_, ?_⟩
  · intro isin h shocks confDraw p hp pt hm
    obtain ⟨sec, hl, hpred, _, _, _⟩ := simulated_predict_ok hp
    obtain ⟨hcp, hvol, _⟩ := lookupSecurity_facts hl
    rw [hpred] at hm
    obtain ⟨i, _, rfl⟩ := simPoints_mem hm
    have hd : (0 : ℚ) ≤ 1 + 3/10 * ((i + 1 : Nat) : ℚ) := by positivity
    have hw : 0 ≤ sec.volatility * sec.current_price * (1 + 3/10 * ((i + 1 : Nat) : ℚ)) :=
      mul_nonneg (mul_nonneg hvol.le (by linarith)) hd
    exact ⟨pyRound2_mono (by linarith), pyRound2_mono (by linarith)⟩
  · intro isin h prices cp vol noise p hvol hp pt hm
    obtain ⟨hpred, _, _, _, _⟩ := fallback_predict_ok hp
    rw [hpred] at hm
    exact RealDataFallbackPredictor.fallbackPoints_interval _ _ _ hvol _ _ _ pt hm
  · intro isin h raw hraw pt hm
    rw [KronosPredictorBackend.predict_predictions] at hm
    obtain ⟨rp, hrp, rfl⟩ := List.mem_map.mp hm
    obtain ⟨hprice, hconf⟩ := hraw rp hrp
    have hw : 0 ≤ rp.predicted_price * (1 - rp.confidence.getD (85/100)) * (1/2) :=
      mul_nonneg (mul_nonneg hprice (by linarith)) (by norm_num)
    unfold kronosNormalizePoint
    constructor <;> dsimp only <;> linarith

/-- C5 witness: the interval invariant at the concrete last point of
the simulated scenario, of the real-data scenario, and of a
model-backed normalisation of one raw point at price 110 with the
default confidence. -/
theorem C5_amended_interval_invariant_witness :
    ((simScenarioBull.predictions.getLast?.getD zeroPoint).confidence_lower ≤
        (simScenarioBull.predictions.getLast?.getD zeroPoint).predicted_price ∧
      (simScenarioBull.predictions.getLast?.getD zeroPoint).predicted_price ≤
        (simScenarioBull.predictions.getLast?.getD zeroPoint).confidence_upper) ∧
    ((fallbackScenarioFlat.predictions.getLast?.getD zeroPoint).confidence_lower ≤
        (fallbackScenarioFlat.predictions.getLast?.getD zeroPoint).predicted_price ∧
      (fallbackScenarioFlat.predictions.getLast?.getD zeroPoint).predicted_price ≤
        (fallbackScenarioFlat.predictions.getLast?.getD zeroPoint).confidence_upper) ∧
    ((kronosNormalizePoint ⟨some 1, 110, none⟩).confidence_lower ≤
        (kronosNormalizePoint ⟨some 1, 110, none⟩).predicted_price ∧
      (kronosNormalizePoint ⟨some 1, 110, none⟩).predicted_price ≤
        (kronosNormalizePoint ⟨some 1, 110, none⟩).confidence_upper) :=
  ⟨C5_amended_interval_invariant.1 "US67066G1040" 1 (fun _ => 0) (4/5)
      simScenarioBull rfl _ (List.mem_cons_self _ _),
   C5_amended_interval_invariant.2.1 "US67066G1040" 1 [100] 100 0 (fun _ => 0)
      fallbackScenarioFlat (le_refl 0) rfl _ (List.mem_cons_self _ _),
   C5_amended_interval_invariant.2.2 "US67066G1040" 5
      ⟨some 100, [⟨some 1, 110, none⟩]⟩
      (by intro rp hrp
          rw [List.mem_singleton] at hrp
          subst hrp
          norm_num)
      _ (List.mem_cons_self _ _)⟩

/-- C8 counterexample: a sufficiently negative normal draw makes the
simulated backend's forecast price negative — with shock −2 on the
bullish entry the single point's predicted price is −98.5, not
positive. -/
theorem C8_counterexample :
    (SimulatedPredictorBackend.predict "US67066G1040" 1 (fun _ => -2) (4/5)).map
        (fun p => p.predictions.map (fun pt => pt.predicted_price)) =
      .ok [-(197/2)] ∧
    ¬ (0 < (-(197/2) : ℚ)) := by
  have h1 : pyRound2 (-(197/2)) = -(197/2) := by
    rw [pyRound2_exact (-(197/2)) (-9850) (by norm_num)]
    norm_num
  constructor
  · unfold SimulatedPredictorBackend.predict
    norm_num [lookupSecurity, SECURITIES, List.find?, simPoints, simDrift, simSignal,
      Except.map, List.range_succ, List.range_zero, h1]
  · norm_num

/-- C8 (amended): every forecast price is positive under bounded
draws, but not unconditionally.  For the simulated backend every
rounded point price is positive provided each day's shock `s`
satisfies `(drift + s)·day ≥ −0.995`; for the real-data backend every
point price is positive provided the current price is positive and
every daily factor (`1 + 1.5·daily_change_pct` and each
`1 + 0.01·noise`) is positive.  A shock below the bound produces a
nonpositive price. -/
theorem C8_amended_positive_prices :
    (∀ (isin : String) (h : ℤ) (shocks : Nat → ℚ) (confDraw : ℚ)
        (sec : SecurityInfo) (p : Prediction),
      lookupSecurity isin = some sec →
      (∀ i, i < h.toNat →
        -(199/200) ≤ (simDrift sec.trend + shocks i) * ((i + 1 : Nat) : ℚ)) →
      SimulatedPredictorBackend.predict isin h shocks confDraw = .ok p →
      ∀ pt ∈ p.predictions, 0 < pt.predicted_price) ∧
    (∀ (isin : String) (h : ℤ) (prices : List ℚ) (cp vol : ℚ)
        (noise : Nat → ℚ) (p : Prediction),
      0 < cp →
      0 < 1 + RealDataFallbackPredictor.fallbackDailyChangePct prices * (3/2) →
      (∀ j, 0 < 1 + noise j * (1/100)) →
      RealDataFallbackPredictor.predict isin h prices cp vol noise = .ok p →
      ∀ pt ∈ p.predictions, 0 < pt.predicted_price) := by
  constructor
  · intro isin h shocks confDraw sec p hl hshock hp pt hm
    obtain ⟨sec', hl', hpred, _, _, _⟩ := simulated_predict_ok hp
    rw [hl] at hl'
    injection hl' with hl'
    subst hl'
    obtain ⟨hcp, _, _⟩ := lookupSecurity_facts hl
    rw [hpred] at hm
    obtain ⟨i, hi, rfl⟩ := simPoints_mem hm
    have ht := hshock i hi
    have hprod : 0 ≤ sec.current_price *
        ((simDrift sec.trend + shocks i) * ((i + 1 : Nat) : ℚ) + 199/200) :=
      mul_nonneg (by linarith) (by linarith)
    have hX : 1/100 ≤ sec.current_price +
        sec.current_price * (simDrift sec.trend + shocks i) * ((i + 1 : Nat) : ℚ) := by
      nlinarith [hprod, hcp]
    exact pyRound2_pos hX
  · intro isin h prices cp vol noise p hcp htf hnf hp pt hm
    obtain ⟨hpred, _, _, _, _⟩ := fallback_predict_ok hp
    rw [hpred] at hm
    exact RealDataFallbackPredictor.fallbackPoints_pos _ _ _ htf hnf _ _ _ hcp pt hm

/-- C8 witness: the concrete last points of the simulated scenario
(zero shocks, bound satisfied) and of the real-data scenario (flat
history, zero noise) carry positive prices. -/
theorem C8_amended_positive_prices_witness :
    0 < (simScenarioBull.predictions.getLast?.getD zeroPoint).predicted_price ∧
    0 < (fallbackScenarioFlat.predictions.getLast?.getD zeroPoint).predicted_price :=
  ⟨C8_amended_positive_prices.1 "US67066G1040" 1 (fun _ => 0) (4/5)
      ⟨"NVIDIA Corp", 100, 3/100, "bullish"⟩ simScenarioBull rfl
      (by intro i hi
          have h0 : (0 : ℚ) ≤ (i : ℚ) := Nat.cast_nonneg i
          norm_num [simDrift]
          nlinarith [h0])
      rfl _ (List.mem_cons_self _ _),
   C8_amended_positive_prices.2 "US67066G1040" 1 [100] 100 0 (fun _ => 0)
      fallbackScenarioFlat (by norm_num)
      (by norm_num [RealDataFallbackPredictor.fallbackDailyChangePct])
      (fun j => by norm_num)
      rfl _ (List.mem_cons_self _ _)⟩

/-- C9 counterexample: with fewer than 20 points available the long
moving average is not "the mean of all available points" — the code
substitutes the live current price instead.  On a five-point window
flat at 10 with live price 100 the code's long SMA is 100 while the
mean of all points is 10, and the resulting classification is
"bearish" where the claimed rule gives "neutral". -/
theorem C9_counterexample :
    RealDataFallbackPredictor.sma_long [10, 10, 10, 10, 10] 100 = 100 ∧
    listMean [10, 10, 10, 10, 10] = 10 ∧
    ¬ (RealDataFallbackPredictor.sma_long [10, 10, 10, 10, 10] 100 =
        listMean [10, 10, 10, 10, 10]) ∧
    fallbackScenarioTen.trend = "bearish" ∧
    RealDataFallbackPredictor.classifyTrend
        (RealDataFallbackPredictor.sma_short [10, 10, 10, 10, 10] 100)
        (listMean [10, 10, 10, 10, 10]) = "neutral" := by
  have hlong : RealDataFallbackPredictor.sma_long [10, 10, 10, 10, 10] 100 = 100 := by
    unfold RealDataFallbackPredictor.sma_long
    norm_num
  have hmean : listMean [10, 10, 10, 10, 10] = 10 := by
    unfold listMean
    norm_num
  have hshort : RealDataFallbackPredictor.sma_short [10, 10, 10, 10, 10] 100 = 10 := by
    unfold RealDataFallbackPredictor.sma_short lastN
    norm_num
  refine ⟨hlong, hmean, ?_, ?_, ?_⟩
  · rw [hlong, hmean]
    norm_num
  · unfold fallbackScenarioTen getOk RealDataFallbackPredictor.predict
    norm_num [RealDataFallbackPredictor.sma_short, RealDataFallbackPredictor.sma_long,
      RealDataFallbackPredictor.classifyTrend, RealDataFallbackPredictor.fallbackDailyChangePct,
      RealDataFallbackPredictor.fallbackPoints, lastN]
  · rw [hshort, hmean]
    unfold RealDataFallbackPredictor.classifyTrend
    norm_num

/-- C9 (amended): in the real-data trend backend the short SMA is the
mean of the last 5 closes when at least 5 are available and otherwise
the live current price; the long SMA is the mean of the last 20 closes
when at least 20 are available and otherwise the live current price
(not the mean of all available points); the produced trend is exactly
the classification of these two SMAs by the stated thresholds
(bullish iff short > long×1.01, bearish iff short < long×0.99, else
neutral). -/
theorem C9_amended_sma_trend :
    (∀ (prices : List ℚ) (cp : ℚ), 5 ≤ prices.length →
      RealDataFallbackPredictor.sma_short prices cp = listMean (lastN 5 prices)) ∧
    (∀ (prices : List ℚ) (cp : ℚ), prices.length < 5 →
      RealDataFallbackPredictor.sma_short prices cp = cp) ∧
    (∀ (prices : List ℚ) (cp : ℚ), 20 ≤ prices.length →
      RealDataFallbackPredictor.sma_long prices cp = listMean (lastN 20 prices)) ∧
    (∀ (prices : List ℚ) (cp : ℚ), prices.length < 20 →
      RealDataFallbackPredictor.sma_long prices cp = cp) ∧
    (∀ (s l : ℚ),
      (l * (101/100) < s → RealDataFallbackPredictor.classifyTrend s l = "bullish") ∧
      (¬ l * (101/100) < s → s < l * (99/100) →
        RealDataFallbackPredictor.classifyTrend s l = "bearish") ∧
      (¬ l * (101/100) < s → ¬ s < l * (99/100) →
        RealDataFallbackPredictor.classifyTrend s l = "neutral")) ∧
    (∀ (isin : String) (h : ℤ) (prices : List ℚ) (cp vol : ℚ)
        (noise : Nat → ℚ) (p : Prediction),
      RealDataFallbackPredictor.predict isin h prices cp vol noise = .ok p →
      p.trend = RealDataFallbackPredictor.classifyTrend
        (RealDataFallbackPredictor.sma_short prices cp)
        (RealDataFallbackPredictor.sma_long prices cp)) := by
  refine ⟨?_, ?_, ?_, ?_, ?_, ?_⟩
  · intro prices cp h5
    unfold RealDataFallbackPredictor.sma_short listMean lastN
    rw [if_pos h5, List.length_drop]
    have h55 : prices.length - (prices.length - 5) = 5 := by omega
    rw [h55]
    norm_num
  · intro prices cp h5
    unfold RealDataFallbackPredictor.sma_short
    rw [if_neg (by omega)]
  · intro prices cp h20
    unfold RealDataFallbackPredictor.sma_long listMean lastN
    rw [if_pos h20, List.length_drop]
    have h2020 : prices.length - (prices.length - 20) = 20 := by omega
    rw [h2020]
    norm_num
  · intro prices cp h20
    unfold RealDataFallbackPredictor.sma_long
    rw [if_neg (by omega)]
  · intro s l
    unfold RealDataFallbackPredictor.classifyTrend
    refine ⟨fun h1 => ?_, fun h1 h2 => ?_, fun h1 h2 => ?_⟩
    · rw [if_pos h1]
    · rw [if_neg h1, if_pos h2]
    · rw [if_neg h1, if_neg h2]
  · intro isin h prices cp vol noise p hp
    exact (fallback_predict_ok hp).2.1

/-- C9 witness: the SMA clauses evaluated on concrete windows (five
and twenty points), the classification on short 10 against long 100,
and the produced trend of the concrete flat-at-10 scenario. -/
theorem C9_amended_sma_trend_witness :
    RealDataFallbackPredictor.sma_short [10, 10, 10, 10, 10] 100 =
      listMean (lastN 5 [10, 10, 10, 10, 10]) ∧
    RealDataFallbackPredictor.sma_short [10] 100 = 100 ∧
    RealDataFallbackPredictor.sma_long (List.replicate 20 (10 : ℚ)) 100 =
      listMean (lastN 20 (List.replicate 20 (10 : ℚ))) ∧
    RealDataFallbackPredictor.sma_long [10, 10, 10, 10, 10] 100 = 100 ∧
    RealDataFallbackPredictor.classifyTrend 10 100 = "bearish" ∧
    fallbackScenarioTen.trend = RealDataFallbackPredictor.classifyTrend
      (RealDataFallbackPredictor.sma_short [10, 10, 10, 10, 10] 100)
      (RealDataFallbackPredictor.sma_long [10, 10, 10, 10, 10] 100) :=
  ⟨C9_amended_sma_trend.1 [10, 10, 10, 10, 10] 100 (by norm_num),
   C9_amended_sma_trend.2.1 [10] 100 (by norm_num),
   C9_amended_sma_trend.2.2.1 (List.replicate 20 (10 : ℚ)) 100 (by simp),
   C9_amended_sma_trend.2.2.2.1 [10, 10, 10, 10, 10] 100 (by norm_num),
   (C9_amended_sma_trend.2.2.2.2.1 10 100).2.1 (by norm_num) (by norm_num),
   C9_amended_sma_trend.2.2.2.2.2 "US67066G1040" 1 [10, 10, 10, 10, 10] 100 0
     (fun _ => 0) fallbackScenarioTen rfl⟩
